import Mathlib

/-!
Verification of the invest-on-influencer repository: a shallow embedding of
the influencer list query (filtering, sorting) and momentum classification
from the React presentation code, together with spec-modelled definitions of
the Scoring & Trend Engine core (Snapshot Validator, Cohort Normalizer,
Score Composer, Trend Calculator, Epoch Publisher, Ranking/Query Service),
which the spec states is not part of the visible source.
-/

namespace InvestOnInfluencer

/-- Record type for one influencer row, mirroring the mock objects in
the InfluencerList page (id, username, full_name, overall_investment_score,
follower_count, engagement_rate, category, growth_rate). Numeric fields are
rationals, standing for the JS numbers used by the page. -/
structure Influencer where
  id : Nat
  username : String
  full_name : String
  overall_investment_score : ℚ
  follower_count : ℚ
  engagement_rate : ℚ
  category : String
  growth_rate : ℚ
deriving DecidableEq

/-- Embedding of the mockInfluencers array of the InfluencerList page. -/
def mockInfluencers : List Influencer :=
  [ ⟨1, "tech_influencer", "Tech Expert", 92, 1500000, 4.8, "Technology", 3.2⟩,
    ⟨2, "fitness_guru", "Fitness Coach", 88, 2200000, 3.9, "Fitness", 2.7⟩,
    ⟨3, "travel_explorer", "Travel Blogger", 85, 980000, 5.2, "Travel", 4.1⟩,
    ⟨4, "food_lover", "Food Critic", 82, 1200000, 4.1, "Food", 2.9⟩,
    ⟨5, "fashion_icon", "Fashion Designer", 80, 3100000, 3.2, "Fashion", 1.8⟩,
    ⟨6, "rising_star", "Entertainment Star", 78, 350000, 6.8, "Entertainment", 12.5⟩,
    ⟨7, "new_creator", "Digital Artist", 76, 180000, 7.2, "Art", 10.2⟩,
    ⟨8, "upcoming_talent", "Music Producer", 75, 420000, 5.9, "Music", 9.7⟩,
    ⟨9, "growing_fast", "Gaming Streamer", 74, 290000, 6.1, "Gaming", 8.9⟩,
    ⟨10, "trending_now", "Lifestyle Blogger", 72, 520000, 5.5, "Lifestyle", 8.3⟩,
    ⟨11, "beauty_expert", "Makeup Artist", 70, 890000, 4.7, "Beauty", 3.5⟩,
    ⟨12, "health_coach", "Wellness Coach", 68, 670000, 4.9, "Health", 4.2⟩ ]

/-- Sortable fields: exactly the four column headers the page passes to
handleSort. -/
inductive SortField
  | overall_investment_score
  | follower_count
  | engagement_rate
  | growth_rate
deriving DecidableEq

/-- Sort direction state of the page: the string values asc and desc. -/
inductive SortDirection
  | asc
  | desc
deriving DecidableEq

/-- Numeric sort key selected by sortField, as read by the JS comparator
a[sortField] - b[sortField]. -/
def sortKey : SortField → Influencer → ℚ
  | .overall_investment_score, inf => inf.overall_investment_score
  | .follower_count, inf => inf.follower_count
  | .engagement_rate, inf => inf.engagement_rate
  | .growth_rate, inf => inf.growth_rate

/-- Filters state object of the page. Each field holds the raw string of the
input control; none stands for the field being absent from the params. -/
structure Filters where
  category : Option String
  minFollowers : Option String
  maxFollowers : Option String
  minScore : Option String
  maxScore : Option String

/-- Full query state of the InfluencerList page: search term, sort state and
the filters object. -/
structure Query where
  searchTerm : Option String
  sortField : SortField
  sortDirection : SortDirection
  filters : Filters

/-- JS truthiness of a possibly-absent string: undefined and the empty
string are falsy, every other string is truthy. -/
def isTruthy : Option String → Bool
  | none => false
  | some s => !(s == "")

/-- Raw string carried by a possibly-absent filter value (empty when
absent), mirroring reading the JS string field. -/
def optStr : Option String → String
  | none => ""
  | some s => s

/-- Boolean test that the list starts with the given character sequence. -/
def startsWithB : List Char → List Char → Bool
  | [], _ => true
  | _ :: _, [] => false
  | a :: as, b :: bs => a == b && startsWithB as bs

/-- Contiguous-subsequence test on character lists, the semantics of the JS
String.prototype.includes used by the search filter. -/
def containsSeq : List Char → List Char → Bool
  | hay, needle =>
    match hay with
    | [] => startsWithB needle []
    | _ :: t => startsWithB needle hay || containsSeq t needle

/-- String containment test: hay.includes(needle). -/
def strIncludes (hay needle : String) : Bool :=
  containsSeq hay.toList needle.toList

/-- Search predicate of the page: lowercase the term once, then test
containment in the lowercased username, full_name, or category. -/
def searchMatch (term : String) (inf : Influencer) : Bool :=
  let s := term.toLower
  strIncludes inf.username.toLower s || strIncludes inf.full_name.toLower s ||
    strIncludes inf.category.toLower s

/-- Numeric value of a nonempty list of decimal digit characters. -/
def digitsVal (cs : List Char) : Nat :=
  cs.foldl (fun acc c => 10 * acc + (c.toNat - 48)) 0

/-- Leading-decimal-digit parse: none when no leading digit exists, the JS
NaN case. -/
def parseNatDigits (cs : List Char) : Option Nat :=
  let ds := cs.takeWhile Char.isDigit
  if ds.isEmpty then none else some (digitsVal ds)

/-- Model of JS parseInt on the filter strings: optional sign followed by
leading decimal digits; none models NaN. -/
def jsParseInt (s : String) : Option Int :=
  match s.toList with
  | [] => none
  | c :: rest =>
    if c = '-' then (parseNatDigits rest).map (fun n => -(n : Int))
    else if c = '+' then (parseNatDigits rest).map (fun n => (n : Int))
    else (parseNatDigits (c :: rest)).map (fun n => (n : Int))

/-- Lower-bound filter predicate: field >= parseInt(s), false when the parse
is NaN (every JS comparison with NaN is false). -/
def geFilter (v : ℚ) (s : String) : Bool :=
  match jsParseInt s with
  | none => false
  | some n => decide ((n : ℚ) ≤ v)

/-- Upper-bound filter predicate: field <= parseInt(s), false when the parse
is NaN. -/
def leFilter (v : ℚ) (s : String) : Bool :=
  match jsParseInt s with
  | none => false
  | some n => decide (v ≤ (n : ℚ))

/-- Conditional filter step: the page wraps each .filter call in an
if-truthy guard, passing the list through unchanged when the guard is
falsy. -/
def condFilter (c : Bool) (p : α → Bool) (l : List α) : List α :=
  if c then l.filter p else l

/-- Filtering pipeline of fetchInfluencers, in source order: search term,
category equality, min/max followers, min/max score. -/
def applyFilters (q : Query) (l : List Influencer) : List Influencer :=
  let l1 := condFilter (isTruthy q.searchTerm)
    (fun inf => searchMatch (optStr q.searchTerm) inf) l
  let l2 := condFilter (isTruthy q.filters.category)
    (fun inf => inf.category == optStr q.filters.category) l1
  let l3 := condFilter (isTruthy q.filters.minFollowers)
    (fun inf => geFilter inf.follower_count (optStr q.filters.minFollowers)) l2
  let l4 := condFilter (isTruthy q.filters.maxFollowers)
    (fun inf => leFilter inf.follower_count (optStr q.filters.maxFollowers)) l3
  let l5 := condFilter (isTruthy q.filters.minScore)
    (fun inf => geFilter inf.overall_investment_score (optStr q.filters.minScore)) l4
  let l6 := condFilter (isTruthy q.filters.maxScore)
    (fun inf => leFilter inf.overall_investment_score (optStr q.filters.maxScore)) l5
  l6

/-- Sorting step of fetchInfluencers: the stable JS Array.prototype.sort with
comparator a[sortField] - b[sortField] (ascending) or its flip (descending),
modelled by the stable insertion sort on the chosen key. -/
def sortStep (f : SortField) (d : SortDirection) (l : List Influencer) : List Influencer :=
  match d with
  | .asc => List.insertionSort (fun a b => sortKey f a ≤ sortKey f b) l
  | .desc => List.insertionSort (fun a b => sortKey f b ≤ sortKey f a) l

/-- Full query pipeline of fetchInfluencers over an arbitrary backing list:
filter then sort. -/
def runQuery (q : Query) (l : List Influencer) : List Influencer :=
  sortStep q.sortField q.sortDirection (applyFilters q l)

/-- Embedding of fetchInfluencers: the pipeline applied to the page's mock
data. -/
def fetchInfluencers (q : Query) : List Influencer :=
  runQuery q mockInfluencers

/-- Momentum tiers rendered by the list page: the green, blue and red
growth-rate badges. -/
inductive MomentumTier
  | high
  | positive
  | declining
deriving DecidableEq

/-- Badge classification of the list page: green when growth_rate > 5, blue
when growth_rate > 0, red otherwise. -/
def momentumBadge (g : ℚ) : MomentumTier :=
  if 5 < g then .high else if 0 < g then .positive else .declining

/-- Arrow choice of the detail page header: up-arrow exactly when
growth_rate > 0. -/
def growthArrowUp (g : ℚ) : Bool :=
  decide (0 < g)

/-- Clamp of a composed integer score to the interval [0,100]. -/
def clampScore (n : ℤ) : ℤ :=
  min 100 (max 0 n)

/-- Modelled from the spec: the Score Composer (section 4.3) is not in src/.
A SubScore is the weighted sum of the metric percentiles; a missing metric
contributes zero and its weight is redistributed proportionally among the
present metrics (the weighted sum is renormalized by the present weight
mass); the output is rounded and clamped to [0,100]. -/
def composeSubScore (weights : List ℚ) (percentiles : List (Option ℚ)) : ℤ :=
  let pairs := weights.zip percentiles
  let present := pairs.filterMap (fun wp => wp.2.map (fun p => (wp.1, p)))
  let massW := (present.map Prod.fst).sum
  let raw := (present.map (fun wp => wp.1 * wp.2)).sum / massW
  clampScore (round raw)

/-- Modelled from the spec: the Score Composer (section 4.3) is not in src/.
The OverallScore is the weighted sum of the three SubScores under the
configured content/audience/brand weights, rounded and clamped to
[0,100]. -/
def composeOverallScore (cw aw bw : ℚ) (c a b : ℤ) : ℤ :=
  clampScore (round (cw * (c : ℚ) + aw * (a : ℚ) + bw * (b : ℚ)))

/-- Modelled from the spec: the Cohort Normalizer (section 4.2) is not in
src/. Average rank (1-based) of a value inside the cohort: tied values
receive the average of the ranks they occupy. -/
def avgRank (cohort : List ℚ) (v : ℚ) : ℚ :=
  let lt := (cohort.filter (fun x => decide (x < v))).length
  let eq := (cohort.filter (fun x => decide (x = v))).length
  (lt : ℚ) + ((eq : ℚ) + 1) / 2

/-- Modelled from the spec: the Cohort Normalizer (section 4.2) is not in
src/. Rank-based percentile: percentile = 100 * (rank - 1) / (cohort_size - 1),
with ties broken by averaging ranks of tied values. -/
def percentileRank (cohort : List ℚ) (v : ℚ) : ℚ :=
  100 * (avgRank cohort v - 1) / ((cohort.length : ℚ) - 1)

/-- Composed score record for one subject inside a category batch. -/
structure ScoreRecord where
  subject_id : Nat
  content_quality : ℤ
  audience_quality : ℤ
  brand_alignment : ℤ
  overall : ℤ
deriving DecidableEq

/-- Validation of one subject's computed record: every SubScore and the
OverallScore must lie in [0,100], the published-epoch invariant. -/
def validScoreRecord (r : ScoreRecord) : Bool :=
  decide (0 ≤ r.content_quality) && decide (r.content_quality ≤ 100) &&
  decide (0 ≤ r.audience_quality) && decide (r.audience_quality ≤ 100) &&
  decide (0 ≤ r.brand_alignment) && decide (r.brand_alignment ≤ 100) &&
  decide (0 ≤ r.overall) && decide (r.overall ≤ 100)

/-- Published epoch for one category: a monotonically increased identifier
plus the batch of records it serves. -/
structure CatEpoch where
  epoch : Nat
  records : List ScoreRecord
deriving DecidableEq

/-- Publication state: the per-category current-epoch table. -/
abbrev PubState := List (String × CatEpoch)

/-- Current published epoch of a category, if any. -/
def currentEpoch (st : PubState) (cat : String) : Option CatEpoch :=
  (st.find? (fun p => p.1 == cat)).map Prod.snd

/-- Modelled from the spec: the Epoch Publisher (section 4.5) is not in
src/. When every record of the batch validates, the category's pointer is
swapped to a fresh epoch holding the batch; when any record fails
validation, the whole batch is discarded and the state is unchanged, so the
previous epoch remains current. -/
def publishBatch (st : PubState) (cat : String) (batch : List ScoreRecord) : PubState :=
  if batch.all validScoreRecord then
    let e := match currentEpoch st cat with
      | none => 0
      | some ce => ce.epoch
    (cat, ⟨e + 1, batch⟩) :: st.filter (fun p => !(p.1 == cat))
  else st

/-- Read query against the published state: the records of the category's
current epoch. -/
def queryScores (st : PubState) (cat : String) : List ScoreRecord :=
  match currentEpoch st cat with
  | none => []
  | some ce => ce.records

/-- Modelled from the spec: the Trend Calculator's winsorization
(section 4.4) is not in src/. A single-cycle delta exceeding the configured
multiple of the subject's trailing median delta is capped at that multiple
and flagged outlier_dampened; otherwise it passes through unflagged. -/
def winsorizeDelta (mult medianDelta delta : ℚ) : ℚ × Bool :=
  if mult * medianDelta < delta then (mult * medianDelta, true) else (delta, false)

/-- Median of a list of rationals: middle element of the sorted list, or the
mean of the two middle elements; zero on the empty list. -/
def medianQ (l : List ℚ) : ℚ :=
  let s := List.insertionSort (fun a b : ℚ => a ≤ b) l
  let n := s.length
  if n = 0 then 0
  else if n % 2 = 1 then s.getD (n / 2) 0
  else (s.getD (n / 2 - 1) 0 + s.getD (n / 2) 0) / 2

/-- Confidence flag of a trend record. -/
inductive Confidence
  | low
  | ok
deriving DecidableEq

/-- Trend record: growth rate (none when unknown), confidence, and the
outlier_dampened flag. -/
structure TrendResult where
  growth_rate : Option ℚ
  confidence : Confidence
  outlier_dampened : Bool
deriving DecidableEq

/-- Modelled from the spec: the Trend Calculator (section 4.4) is not in
src/. Given the chronologically ordered headline-metric values of the
trailing window, it reports confidence low and an unknown (not zero)
growth rate when fewer than 2 snapshots fall in the window; otherwise it
winsorizes the single-cycle deltas against the trailing median delta and
reports the percentage change over the window built from the dampened
deltas. -/
def computeTrend (mult : ℚ) (window : List ℚ) : TrendResult :=
  if window.length < 2 then ⟨none, .low, false⟩
  else
    let deltas := (window.zip window.tail).map (fun ab => ab.2 - ab.1)
    let m := medianQ deltas
    let capped := deltas.map (winsorizeDelta mult m)
    let total := (capped.map Prod.fst).sum
    let flagged := capped.any Prod.snd
    let first := window.headD 0
    ⟨some (100 * total / first), .ok, flagged⟩

/-- Raw metric payload of one snapshot. -/
structure RawMetrics where
  follower_count : ℤ
  following_count : ℤ
  post_count : ℤ
  engagement_rate : ℚ
deriving DecidableEq

/-- One raw metric snapshot for one subject at one collection time. -/
structure Snapshot where
  subject_id : Nat
  collected_at : Nat
  raw : RawMetrics
deriving DecidableEq

/-- Result of submitting a snapshot. -/
inductive SubmitResult
  | accepted
  | rejected (reason : String)
deriving DecidableEq

/-- Append-only snapshot store. -/
abbrev SnapStore := List Snapshot

/-- Modelled from the spec: the Snapshot Validator (section 4.1) is not in
src/. Resubmitting an already-stored (subject_id, collected_at) pair is a
no-op success; otherwise a snapshot with a negative count metric, or one not
strictly after the subject's last stored snapshot, is rejected without a
state change, and a valid snapshot is appended. -/
def submitSnapshot (store : SnapStore) (s : Snapshot) : SnapStore × SubmitResult :=
  if store.any (fun t => t.subject_id == s.subject_id && t.collected_at == s.collected_at) then
    (store, .accepted)
  else if s.raw.follower_count < 0 || s.raw.following_count < 0 || s.raw.post_count < 0 then
    (store, .rejected "negative count metric")
  else if store.any (fun t => t.subject_id == s.subject_id && s.collected_at ≤ t.collected_at) then
    (store, .rejected "out-of-order snapshot")
  else
    (s :: store, .accepted)

/-- Subject row served by the Ranking/Query Service. -/
structure SubjectRow where
  subject_id : Nat
  handle : String
  category : String
  followers : ℚ
  score : ℚ
  growth : ℚ
deriving DecidableEq

/-- Filter set of the Ranking/Query Service: free text over
handle/category plus numeric ranges on followers, score and growth rate;
none means the filter is inactive. -/
structure RowFilters where
  text : Option String
  minFollowers : Option ℚ
  maxFollowers : Option ℚ
  minScore : Option ℚ
  maxScore : Option ℚ
  minGrowth : Option ℚ
  maxGrowth : Option ℚ

/-- Free-text filter over handle/category; inactive when absent. -/
def textOk (t : Option String) (s : SubjectRow) : Bool :=
  match t with
  | none => true
  | some q => strIncludes s.handle.toLower q.toLower || strIncludes s.category.toLower q.toLower

/-- Lower range bound; inactive when absent. -/
def geOk (lo : Option ℚ) (v : ℚ) : Bool :=
  match lo with
  | none => true
  | some b => decide (b ≤ v)

/-- Upper range bound; inactive when absent. -/
def leOk (hi : Option ℚ) (v : ℚ) : Bool :=
  match hi with
  | none => true
  | some b => decide (v ≤ b)

/-- Modelled from the spec: the Ranking/Query Service (section 4.6) is not
in src/. Conjunction of every active filter: free text over
handle/category, and the followers, score and growth-rate range bounds. -/
def passesFilters (f : RowFilters) (s : SubjectRow) : Bool :=
  textOk f.text s && geOk f.minFollowers s.followers && leOk f.maxFollowers s.followers &&
    geOk f.minScore s.score && leOk f.maxScore s.score &&
    geOk f.minGrowth s.growth && leOk f.maxGrowth s.growth

/-- Total-match set of a list_subjects query: the rows passing every active
filter. -/
def matchedSubjects (db : List SubjectRow) (f : RowFilters) : List SubjectRow :=
  db.filter (passesFilters f)

/-- Numeric sort fields of the Ranking/Query Service. -/
inductive RowSortField
  | followers
  | score
  | growth
deriving DecidableEq

/-- Sort key of a subject row. -/
def rowKey : RowSortField → SubjectRow → ℚ
  | .followers, s => s.followers
  | .score, s => s.score
  | .growth, s => s.growth

/-- Modelled from the spec: the Ranking/Query Service (section 4.6) is not
in src/. list_subjects filters with AND semantics, sorts by the chosen
numeric field with subject_id-ascending tie-break, paginates with
offset+limit, and returns the total-match count. -/
def listSubjects (db : List SubjectRow) (f : RowFilters) (sf : RowSortField)
    (d : SortDirection) (offset limit : Nat) : List SubjectRow × Nat :=
  let m := matchedSubjects db f
  let sorted := match d with
    | .asc => List.insertionSort
        (fun a b => rowKey sf a < rowKey sf b ∨ (rowKey sf a = rowKey sf b ∧ a.subject_id ≤ b.subject_id)) m
    | .desc => List.insertionSort
        (fun a b => rowKey sf b < rowKey sf a ∨ (rowKey sf a = rowKey sf b ∧ a.subject_id ≤ b.subject_id)) m
  ((sorted.drop offset).take limit, m.length)

/-- Cohort of the spec's percentile scenario: follower counts
[100k, 500k, 1M, 2M, 3M] in category Tech. -/
def techCohort : List ℚ :=
  [100000, 500000, 1000000, 2000000, 3000000]

/-- Previously published record of the batch-abort scenario. -/
def prevRecord : ScoreRecord :=
  ⟨1, 80, 90, 70, 85⟩

/-- Record failing validation in the batch-abort scenario: overall score
out of [0,100]. -/
def badRecord : ScoreRecord :=
  ⟨2, 50, 60, 40, 150⟩

/-- Publication state of the batch-abort scenario: category Fitness serving
epoch 3. -/
def fitnessState : PubState :=
  [("Fitness", ⟨3, [prevRecord]⟩)]

/-- Stored snapshot of the idempotency scenario. -/
def snap0 : Snapshot :=
  ⟨7, 100, ⟨300000, 500, 120, 4⟩⟩

theorem clampScore_bounds (n : ℤ) : 0 ≤ clampScore n ∧ clampScore n ≤ 100 := by
  unfold clampScore
  omega

theorem mem_condFilter {α : Type} {x : α} {c : Bool} {p : α → Bool} {l : List α} :
    x ∈ condFilter c p l ↔ x ∈ l ∧ (c = true → p x = true) := by
  unfold condFilter
  cases c with
  | false => simp
  | true => simp [List.mem_filter]

theorem pairwise_condFilter {α : Type} {R : α → α → Prop} (c : Bool) (p : α → Bool)
    {l : List α} (h : l.Pairwise R) : (condFilter c p l).Pairwise R := by
  unfold condFilter
  split_ifs
  · exact h.filter p
  · exact h

theorem pairwise_applyFilters {R : Influencer → Influencer → Prop} (q : Query)
    (l : List Influencer) (h : l.Pairwise R) : (applyFilters q l).Pairwise R := by
  unfold applyFilters
  exact pairwise_condFilter _ _ (pairwise_condFilter _ _ (pairwise_condFilter _ _
    (pairwise_condFilter _ _ (pairwise_condFilter _ _ (pairwise_condFilter _ _ h)))))

theorem pairwise_tie_orderedInsert {α : Type} (r : α → α → Prop) [DecidableRel r]
    (key : α → ℚ) (idOf : α → ℕ)
    (hr : ∀ a b, ¬ r a b → key a ≠ key b) (x : α) :
    ∀ l : List α,
      l.Pairwise (fun a b => key a = key b → idOf a < idOf b) →
      (∀ y ∈ l, key x = key y → idOf x < idOf y) →
      (l.orderedInsert r x).Pairwise (fun a b => key a = key b → idOf a < idOf b)
  | [], _, _ => List.pairwise_singleton _ _
  | y :: ys, hp, hx => by
    rw [List.orderedInsert]
    rcases List.pairwise_cons.mp hp with ⟨hy, hys⟩
    split_ifs with hxy
    · exact List.pairwise_cons.mpr ⟨hx, hp⟩
    · refine List.pairwise_cons.mpr ⟨?_, pairwise_tie_orderedInsert r key idOf hr x ys hys
        (fun z hz => hx z (List.mem_cons_of_mem _ hz))⟩
      intro z hz
      rcases (List.mem_orderedInsert r).mp hz with hzx | hzys
      · rw [hzx]
        exact fun he => (hr x y hxy he.symm).elim
      · exact hy z hzys

theorem pairwise_tie_insertionSort {α : Type} (r : α → α → Prop) [DecidableRel r]
    (key : α → ℚ) (idOf : α → ℕ)
    (hr : ∀ a b, ¬ r a b → key a ≠ key b) :
    ∀ l : List α,
      l.Pairwise (fun a b => key a = key b → idOf a < idOf b) →
      (l.insertionSort r).Pairwise (fun a b => key a = key b → idOf a < idOf b)
  | [], _ => by simp
  | x :: l, hp => by
    rw [List.insertionSort]
    rcases List.pairwise_cons.mp hp with ⟨hx, hl⟩
    exact pairwise_tie_orderedInsert r key idOf hr x _
      (pairwise_tie_insertionSort r key idOf hr l hl)
      (fun y hy => hx y ((List.mem_insertionSort r).mp hy))

theorem mem_sortStep {x : Influencer} {f : SortField} {d : SortDirection}
    {l : List Influencer} : x ∈ sortStep f d l ↔ x ∈ l := by
  cases d <;> simp [sortStep]

/-- C1: for every raw-metric input, the composed OverallScore and each
SubScore lie in [0,100]: the Score Composer rounds and clamps every output
value to that interval. -/
theorem C1_scores_in_range :
    (∀ (weights : List ℚ) (percentiles : List (Option ℚ)),
        0 ≤ composeSubScore weights percentiles ∧ composeSubScore weights percentiles ≤ 100) ∧
    (∀ (cw aw bw : ℚ) (c a b : ℤ),
        0 ≤ composeOverallScore cw aw bw c a b ∧ composeOverallScore cw aw bw c a b ≤ 100) :=
  ⟨fun _ _ => clampScore_bounds _, fun _ _ _ _ _ _ => clampScore_bounds _⟩

/-- C2: rank-based percentiles with tie averaging: the cohort
[100k, 500k, 1M, 2M, 3M] gets percentiles [0, 25, 50, 75, 100], the 1M
subject gets percentile 50, and a tied pair receives the average of its
tied ranks. -/
theorem C2_percentile_scenario :
    techCohort.map (percentileRank techCohort) = [0, 25, 50, 75, 100] ∧
    percentileRank techCohort 1000000 = 50 ∧
    percentileRank [10, 20, 20, 30] 20 = 50 := by
  refine ⟨?_, ?_, ?_⟩ <;>
    norm_num [percentileRank, avgRank, techCohort, List.filter]

/-- C3: epoch publication is atomic per category: when any record of a
category batch fails validation the whole batch is discarded, the state is
unchanged, and every query still answers from the previous epoch. -/
theorem C3_batch_atomic (st : PubState) (cat : String) (batch : List ScoreRecord)
    (h : ∃ r ∈ batch, validScoreRecord r = false) :
    publishBatch st cat batch = st ∧
      ∀ c, queryScores (publishBatch st cat batch) c = queryScores st c := by
  have hall : ¬ (batch.all validScoreRecord = true) := by
    intro hall
    rcases h with ⟨r, hrm, hv⟩
    have := List.all_eq_true.mp hall r hrm
    rw [hv] at this
    exact Bool.false_ne_true this
  have hpub : publishBatch st cat batch = st := by
    unfold publishBatch
    exact if_neg hall
  exact ⟨hpub, fun c => by rw [hpub]⟩

/-- Witness for C3: the Fitness batch containing an invalid record is
discarded and the query still returns the previous epoch's records. -/
theorem C3_batch_atomic_witness :
    publishBatch fitnessState "Fitness" [prevRecord, badRecord] = fitnessState ∧
      queryScores (publishBatch fitnessState "Fitness" [prevRecord, badRecord]) "Fitness"
        = [prevRecord] := by
  have h := C3_batch_atomic fitnessState "Fitness" [prevRecord, badRecord]
    ⟨badRecord, by simp, by decide⟩
  exact ⟨h.1, by rw [h.2 "Fitness"]; decide⟩

/-- C4: momentum is classified exactly by growth_rate: high iff
growth_rate > 5, positive iff 0 < growth_rate <= 5, declining iff
growth_rate <= 0; the detail page's up-arrow shows iff growth_rate > 0. -/
theorem C4_momentum_tiers (g : ℚ) :
    (momentumBadge g = .high ↔ 5 < g) ∧
    (momentumBadge g = .positive ↔ 0 < g ∧ g ≤ 5) ∧
    (momentumBadge g = .declining ↔ g ≤ 0) ∧
    (growthArrowUp g = true ↔ 0 < g) := by
  unfold momentumBadge growthArrowUp
  split_ifs with h1 h2
  · refine ⟨⟨fun _ => h1, fun _ => rfl⟩, ⟨fun he => absurd he (by decide), ?_⟩,
      ⟨fun he => absurd he (by decide), fun hle => absurd h1 (by linarith)⟩, by simp⟩
    rintro ⟨-, hle⟩
    exact absurd h1 (not_lt.mpr hle)
  · refine ⟨⟨fun he => absurd he (by decide), fun hlt => absurd hlt h1⟩,
      ⟨fun _ => ⟨h2, not_lt.mp h1⟩, fun _ => rfl⟩,
      ⟨fun he => absurd he (by decide), fun hle => absurd h2 (by linarith)⟩, by simp⟩
  · refine ⟨⟨fun he => absurd he (by decide), fun hlt => absurd hlt h1⟩,
      ⟨fun he => absurd he (by decide), ?_⟩,
      ⟨fun _ => not_lt.mp h2, fun _ => rfl⟩, by simp⟩
    rintro ⟨hpos, -⟩
    exact absurd hpos h2

/-- C5: for every ranked query over the list page, any two subjects with
equal sort-key values appear in subject_id ascending order (the stable sort
over the id-ordered dataset), and repeating the query yields the identical
ordering. -/
theorem C5_sort_tiebreak (q : Query) :
    (fetchInfluencers q).Pairwise
      (fun a b => sortKey q.sortField a = sortKey q.sortField b → a.id < b.id) ∧
    fetchInfluencers q = fetchInfluencers q := by
  refine ⟨?_, rfl⟩
  have hbase : mockInfluencers.Pairwise (fun a b => a.id < b.id) := by decide
  have hP : (applyFilters q mockInfluencers).Pairwise
      (fun a b => sortKey q.sortField a = sortKey q.sortField b → a.id < b.id) := by
    refine (pairwise_applyFilters q mockInfluencers hbase).imp ?_
    intro a b h _
    exact h
  show (sortStep q.sortField q.sortDirection (applyFilters q mockInfluencers)).Pairwise _
  cases q.sortDirection with
  | asc =>
      simp only [sortStep]
      exact pairwise_tie_insertionSort _ (sortKey q.sortField) Influencer.id
        (fun a b hn he => hn (le_of_eq he)) _ hP
  | desc =>
      simp only [sortStep]
      exact pairwise_tie_insertionSort _ (sortKey q.sortField) Influencer.id
        (fun a b hn he => hn (le_of_eq he.symm)) _ hP

/-- C6: a single-cycle delta exceeding the configured multiple of the
trailing median delta is capped at that multiple and flagged
outlier_dampened; the 300k-to-900k jump with median delta 20k and multiple
3 is capped at 60k. -/
theorem C6_winsorize_cap (mult m d : ℚ) (h : mult * m < d) :
    winsorizeDelta mult m d = (mult * m, true) ∧
    winsorizeDelta 3 20000 (900000 - 300000) = (60000, true) := by
  constructor
  · unfold winsorizeDelta
    exact if_pos h
  · norm_num [winsorizeDelta]

/-- Witness for C6 at the spec scenario: multiple 3, trailing median delta
20k, observed delta 600k. -/
theorem C6_winsorize_cap_witness :
    winsorizeDelta 3 20000 (900000 - 300000) = (3 * 20000, true) ∧
    winsorizeDelta 3 20000 (900000 - 300000) = (60000, true) :=
  C6_winsorize_cap 3 20000 (900000 - 300000) (by norm_num)

/-- C7: with fewer than 2 snapshots in the trailing window the Trend
Calculator reports confidence low and an unknown (none, not zero) growth
rate. -/
theorem C7_thin_history (mult : ℚ) (w : List ℚ) (h : w.length < 2) :
    (computeTrend mult w).confidence = .low ∧ (computeTrend mult w).growth_rate = none := by
  unfold computeTrend
  rw [if_pos h]
  exact ⟨rfl, rfl⟩

/-- Witness for C7 at the empty window. -/
theorem C7_thin_history_witness :
    (computeTrend 3 []).confidence = .low ∧ (computeTrend 3 []).growth_rate = none :=
  C7_thin_history 3 [] (by decide)

/-- C8: submit_snapshot is idempotent on duplicates: resubmitting an
already-stored (subject_id, collected_at) pair returns success and leaves
the store unchanged. -/
theorem C8_submit_idempotent (store : SnapStore) (s : Snapshot)
    (h : ∃ t ∈ store, t.subject_id = s.subject_id ∧ t.collected_at = s.collected_at) :
    submitSnapshot store s = (store, .accepted) := by
  have hdup : store.any
      (fun t => t.subject_id == s.subject_id && t.collected_at == s.collected_at) = true := by
    rcases h with ⟨t, ht, h1, h2⟩
    exact List.any_eq_true.mpr ⟨t, ht, by simp [h1, h2]⟩
  unfold submitSnapshot
  rw [if_pos hdup]

/-- Witness for C8: resubmitting the stored snapshot is a no-op success. -/
theorem C8_submit_idempotent_witness :
    submitSnapshot [snap0] snap0 = ([snap0], .accepted) :=
  C8_submit_idempotent [snap0] snap0 ⟨snap0, by simp, rfl, rfl⟩

/-- C9: a subject appears in the result of a combined query exactly when it
satisfies every active filter simultaneously, both for the spec-modelled
Ranking/Query Service (free text plus followers, score and growth-rate
ranges) and for the list page's query pipeline. -/
theorem C9_and_semantics :
    (∀ (db : List SubjectRow) (f : RowFilters) (s : SubjectRow),
        s ∈ matchedSubjects db f ↔
          s ∈ db ∧ textOk f.text s = true ∧
            geOk f.minFollowers s.followers = true ∧ leOk f.maxFollowers s.followers = true ∧
            geOk f.minScore s.score = true ∧ leOk f.maxScore s.score = true ∧
            geOk f.minGrowth s.growth = true ∧ leOk f.maxGrowth s.growth = true) ∧
    (∀ (l : List Influencer) (q : Query) (x : Influencer),
        x ∈ runQuery q l ↔
          x ∈ l ∧
            (isTruthy q.searchTerm = true → searchMatch (optStr q.searchTerm) x = true) ∧
            (isTruthy q.filters.category = true →
              (x.category == optStr q.filters.category) = true) ∧
            (isTruthy q.filters.minFollowers = true →
              geFilter x.follower_count (optStr q.filters.minFollowers) = true) ∧
            (isTruthy q.filters.maxFollowers = true →
              leFilter x.follower_count (optStr q.filters.maxFollowers) = true) ∧
            (isTruthy q.filters.minScore = true →
              geFilter x.overall_investment_score (optStr q.filters.minScore) = true) ∧
            (isTruthy q.filters.maxScore = true →
              leFilter x.overall_investment_score (optStr q.filters.maxScore) = true)) := by
  constructor
  · intro db f s
    simp [matchedSubjects, List.mem_filter, passesFilters, Bool.and_eq_true, and_assoc]
  · intro l q x
    rw [runQuery, mem_sortStep]
    simp only [applyFilters, mem_condFilter]
    tauto

/-- C10: an empty-string filter value is the identity filter: for every
subject list and query, setting searchTerm, category, minFollowers,
maxFollowers, minScore or maxScore to the empty string gives exactly the
result of running the query with that filter absent. -/
theorem C10_empty_filter_identity (l : List Influencer) (q : Query) :
    runQuery {q with searchTerm := some ""} l = runQuery {q with searchTerm := none} l ∧
    runQuery {q with filters := {q.filters with category := some ""}} l
      = runQuery {q with filters := {q.filters with category := none}} l ∧
    runQuery {q with filters := {q.filters with minFollowers := some ""}} l
      = runQuery {q with filters := {q.filters with minFollowers := none}} l ∧
    runQuery {q with filters := {q.filters with maxFollowers := some ""}} l
      = runQuery {q with filters := {q.filters with maxFollowers := none}} l ∧
    runQuery {q with filters := {q.filters with minScore := some ""}} l
      = runQuery {q with filters := {q.filters with minScore := none}} l ∧
    runQuery {q with filters := {q.filters with maxScore := some ""}} l
      = runQuery {q with filters := {q.filters with maxScore := none}} l :=
  ⟨rfl, rfl, rfl, rfl, rfl, rfl⟩

end InvestOnInfluencer
